import Mathlib

/-!
Verification development for the StellarEscrow contract
(`src/lib.rs`, `src/storage.rs`, `src/types.rs`, `src/errors.rs`).

Shallow embedding: addresses are opaque identifiers modelled as `Nat`;
`u64`/`u32` machine integers are `Nat` with explicit checked-arithmetic
bounds against `2^64 - 1` exactly where the Rust code uses
`checked_mul` / `checked_add` / `checked_sub` / `checked_div`.
The Soroban host storage is a record of optional scalar keys plus maps
for trades and arbitrator membership.  Token transfers performed via
`token_client.transfer` are recorded in an append-only transfer log;
`require_auth` (the external Authorization Gate) is modelled as
satisfied, matching `mock_all_auths` in the test suite — the only
caller-identity check performed by contract code itself is the
`env.invoker()` comparison inside `raise_dispute`, which is kept
explicit.  A contract call that returns `Err` commits no state
(host-level transaction rollback), so each operation returns
`Except ContractError (result × state)` and an error carries no state.
-/

namespace StellarEscrow

abbrev Addr := Nat

/-- Largest value representable in a `u64`. -/
def U64_MAX : Nat := 18446744073709551615

/-- Rust `u64::checked_add`. -/
def checked_add (a b : Nat) : Option Nat :=
  if a + b ≤ U64_MAX then some (a + b) else none

/-- Rust `u64::checked_mul`. -/
def checked_mul (a b : Nat) : Option Nat :=
  if a * b ≤ U64_MAX then some (a * b) else none

/-- Rust `u64::checked_sub`. -/
def checked_sub (a b : Nat) : Option Nat :=
  if b ≤ a then some (a - b) else none

/-- Rust `u64::checked_div` (fails only on division by zero). -/
def checked_div (a b : Nat) : Option Nat :=
  if b = 0 then none else some (a / b)

/-- `TradeStatus` from `src/types.rs`. -/
inductive TradeStatus where
  | Created
  | Funded
  | Completed
  | Disputed
  | Cancelled
deriving DecidableEq, Repr

/-- `DisputeResolution` from `src/types.rs`. -/
inductive DisputeResolution where
  | ReleaseToBuyer
  | ReleaseToSeller
deriving DecidableEq, Repr

/-- `ContractError` from `src/errors.rs`. -/
inductive ContractError where
  | AlreadyInitialized
  | NotInitialized
  | InvalidAmount
  | InvalidFeeBps
  | ArbitratorNotRegistered
  | TradeNotFound
  | InvalidStatus
  | Overflow
  | NoFeesToWithdraw
  | Unauthorized
deriving DecidableEq, Repr

/-- `Trade` from `src/types.rs`. -/
structure Trade where
  id : Nat
  seller : Addr
  buyer : Addr
  amount : Nat
  fee : Nat
  arbitrator : Option Addr
  status : TradeStatus
deriving DecidableEq, Repr

/-- The Soroban host state visible to the contract: the instance-storage
scalar keys (`INIT`, `ADMIN`, `USDC`, `FEE_BPS`, `COUNTER`, `ACC_FEES`),
the persistent per-trade and per-arbitrator keys, the contract's own
address, and the log of token transfers the contract has performed. -/
structure EscrowState where
  inited : Bool
  admin : Option Addr
  usdcToken : Option Addr
  feeBps : Option Nat
  tradeCounter : Option Nat
  accumulatedFees : Option Nat
  trades : Nat → Option Trade
  arbitrators : Addr → Bool
  contractAddr : Addr
  transfers : List (Addr × Addr × Nat)

/-- State of a freshly deployed, never-initialized contract: no storage
keys exist. -/
def emptyState (ca : Addr) : EscrowState :=
  { inited := false
    admin := none
    usdcToken := none
    feeBps := none
    tradeCounter := none
    accumulatedFees := none
    trades := fun _ => none
    arbitrators := fun _ => false
    contractAddr := ca
    transfers := [] }

/-! ## Storage layer (`src/storage.rs`) -/

/-- `storage::is_initialized`. -/
def is_initialized (s : EscrowState) : Bool := s.inited

/-- `storage::get_admin`. -/
def get_admin (s : EscrowState) : Except ContractError Addr :=
  match s.admin with
  | some a => .ok a
  | none => .error .NotInitialized

/-- `storage::get_usdc_token`. -/
def get_usdc_token (s : EscrowState) : Except ContractError Addr :=
  match s.usdcToken with
  | some t => .ok t
  | none => .error .NotInitialized

/-- `storage::get_fee_bps`. -/
def get_fee_bps (s : EscrowState) : Except ContractError Nat :=
  match s.feeBps with
  | some v => .ok v
  | none => .error .NotInitialized

/-- `storage::set_fee_bps`. -/
def set_fee_bps (s : EscrowState) (v : Nat) : EscrowState :=
  { s with feeBps := some v }

/-- `storage::get_trade_counter`. -/
def get_trade_counter (s : EscrowState) : Except ContractError Nat :=
  match s.tradeCounter with
  | some c => .ok c
  | none => .error .NotInitialized

/-- `storage::set_trade_counter`. -/
def set_trade_counter (s : EscrowState) (c : Nat) : EscrowState :=
  { s with tradeCounter := some c }

/-- `storage::increment_trade_counter`: reads the counter, checked-adds
one, stores and returns the new value. -/
def increment_trade_counter (s : EscrowState) :
    Except ContractError (Nat × EscrowState) :=
  match get_trade_counter s with
  | .error e => .error e
  | .ok current =>
    match checked_add current 1 with
    | none => .error .Overflow
    | some next => .ok (next, set_trade_counter s next)

/-- `storage::get_accumulated_fees`. -/
def get_accumulated_fees (s : EscrowState) : Except ContractError Nat :=
  match s.accumulatedFees with
  | some f => .ok f
  | none => .error .NotInitialized

/-- `storage::set_accumulated_fees`. -/
def set_accumulated_fees (s : EscrowState) (f : Nat) : EscrowState :=
  { s with accumulatedFees := some f }

/-- `storage::get_trade`: persistent-storage lookup under
`(TRADE, trade_id)`; absence is `TradeNotFound` (no initialization
check). -/
def get_trade (s : EscrowState) (trade_id : Nat) :
    Except ContractError Trade :=
  match s.trades trade_id with
  | some t => .ok t
  | none => .error .TradeNotFound

/-- `storage::save_trade`. -/
def save_trade (s : EscrowState) (trade_id : Nat) (t : Trade) :
    EscrowState :=
  { s with trades := fun k => if k = trade_id then some t else s.trades k }

/-- `storage::save_arbitrator`. -/
def save_arbitrator (s : EscrowState) (arb : Addr) : EscrowState :=
  { s with arbitrators := fun k => if k = arb then true else s.arbitrators k }

/-- `storage::remove_arbitrator`. -/
def remove_arbitrator (s : EscrowState) (arb : Addr) : EscrowState :=
  { s with arbitrators := fun k => if k = arb then false else s.arbitrators k }

/-- `storage::has_arbitrator`. -/
def has_arbitrator (s : EscrowState) (arb : Addr) : Bool :=
  s.arbitrators arb

/-- A `token_client.transfer(src, dst, amt)` call: recorded in the
transfer log (the external token ledger is out of scope). -/
def transferTok (s : EscrowState) (src dst amt : Nat) : EscrowState :=
  { s with transfers := s.transfers ++ [(src, dst, amt)] }

/-! ## Contract operations (`src/lib.rs`) -/

/-- `StellarEscrowContract::initialize` (named `initContract` here since
the source name is a Lean command keyword). -/
def initContract (s : EscrowState) (admin usdc_token : Addr)
    (fee_bps : Nat) : Except ContractError (Unit × EscrowState) :=
  if is_initialized s then .error .AlreadyInitialized
  else if 10000 < fee_bps then .error .InvalidFeeBps
  else
    .ok ((), { s with
      admin := some admin
      usdcToken := some usdc_token
      feeBps := some fee_bps
      tradeCounter := some 0
      accumulatedFees := some 0
      inited := true })

/-- `StellarEscrowContract::register_arbitrator`. -/
def register_arbitrator (s : EscrowState) (arb : Addr) :
    Except ContractError (Unit × EscrowState) :=
  if !is_initialized s then .error .NotInitialized
  else
    match get_admin s with
    | .error e => .error e
    | .ok _ => .ok ((), save_arbitrator s arb)

/-- `StellarEscrowContract::remove_arbitrator_fn`. -/
def remove_arbitrator_fn (s : EscrowState) (arb : Addr) :
    Except ContractError (Unit × EscrowState) :=
  if !is_initialized s then .error .NotInitialized
  else
    match get_admin s with
    | .error e => .error e
    | .ok _ => .ok ((), remove_arbitrator s arb)

/-- `StellarEscrowContract::update_fee`. -/
def update_fee (s : EscrowState) (fee_bps : Nat) :
    Except ContractError (Unit × EscrowState) :=
  if !is_initialized s then .error .NotInitialized
  else if 10000 < fee_bps then .error .InvalidFeeBps
  else
    match get_admin s with
    | .error e => .error e
    | .ok _ => .ok ((), set_fee_bps s fee_bps)

/-- `StellarEscrowContract::withdraw_fees`. -/
def withdraw_fees (s : EscrowState) (dst : Addr) :
    Except ContractError (Unit × EscrowState) :=
  if !is_initialized s then .error .NotInitialized
  else
    match get_admin s with
    | .error e => .error e
    | .ok _ =>
      match get_accumulated_fees s with
      | .error e => .error e
      | .ok fees =>
        if fees = 0 then .error .NoFeesToWithdraw
        else
          match get_usdc_token s with
          | .error e => .error e
          | .ok _ =>
            let s1 := transferTok s s.contractAddr dst fees
            .ok ((), set_accumulated_fees s1 0)

/-- `StellarEscrowContract::create_trade`. -/
def create_trade (s : EscrowState) (seller buyer : Addr) (amount : Nat)
    (arbitrator : Option Addr) : Except ContractError (Nat × EscrowState) :=
  if !is_initialized s then .error .NotInitialized
  else if amount = 0 then .error .InvalidAmount
  else if !(arbitrator.all fun arb => has_arbitrator s arb) then
    .error .ArbitratorNotRegistered
  else
    match increment_trade_counter s with
    | .error e => .error e
    | .ok (trade_id, s1) =>
      match get_fee_bps s1 with
      | .error e => .error e
      | .ok fee_bps =>
        match checked_mul amount fee_bps with
        | none => .error .Overflow
        | some p =>
          match checked_div p 10000 with
          | none => .error .Overflow
          | some fee =>
            let trade : Trade :=
              { id := trade_id, seller := seller, buyer := buyer
                amount := amount, fee := fee, arbitrator := arbitrator
                status := .Created }
            .ok (trade_id, save_trade s1 trade_id trade)

/-- `StellarEscrowContract::fund_trade`. -/
def fund_trade (s : EscrowState) (trade_id : Nat) :
    Except ContractError (Unit × EscrowState) :=
  if !is_initialized s then .error .NotInitialized
  else
    match get_trade s trade_id with
    | .error e => .error e
    | .ok trade =>
      if trade.status ≠ .Created then .error .InvalidStatus
      else
        match get_usdc_token s with
        | .error e => .error e
        | .ok _ =>
          let s1 := transferTok s trade.buyer s.contractAddr trade.amount
          .ok ((), save_trade s1 trade_id { trade with status := .Funded })

/-- `StellarEscrowContract::complete_trade`. -/
def complete_trade (s : EscrowState) (trade_id : Nat) :
    Except ContractError (Unit × EscrowState) :=
  if !is_initialized s then .error .NotInitialized
  else
    match get_trade s trade_id with
    | .error e => .error e
    | .ok trade =>
      if trade.status ≠ .Funded then .error .InvalidStatus
      else .ok ((), save_trade s trade_id { trade with status := .Completed })

/-- `StellarEscrowContract::confirm_receipt`.  Note: the source reads the
trade immutably and never calls `save_trade`, so the stored status stays
`Completed` after a successful call. -/
def confirm_receipt (s : EscrowState) (trade_id : Nat) :
    Except ContractError (Unit × EscrowState) :=
  if !is_initialized s then .error .NotInitialized
  else
    match get_trade s trade_id with
    | .error e => .error e
    | .ok trade =>
      if trade.status ≠ .Completed then .error .InvalidStatus
      else
        match get_usdc_token s with
        | .error e => .error e
        | .ok _ =>
          match checked_sub trade.amount trade.fee with
          | none => .error .Overflow
          | some payout =>
            match get_accumulated_fees
                (transferTok s s.contractAddr trade.seller payout) with
            | .error e => .error e
            | .ok current_fees =>
              match checked_add current_fees trade.fee with
              | none => .error .Overflow
              | some new_fees =>
                .ok ((), set_accumulated_fees
                  (transferTok s s.contractAddr trade.seller payout)
                  new_fees)

/-- `StellarEscrowContract::raise_dispute`; `caller` is `env.invoker()`. -/
def raise_dispute (s : EscrowState) (trade_id : Nat) (caller : Addr) :
    Except ContractError (Unit × EscrowState) :=
  if !is_initialized s then .error .NotInitialized
  else
    match get_trade s trade_id with
    | .error e => .error e
    | .ok trade =>
      if trade.status ≠ .Funded ∧ trade.status ≠ .Completed then
        .error .InvalidStatus
      else if trade.arbitrator = none then .error .ArbitratorNotRegistered
      else if caller ≠ trade.buyer ∧ caller ≠ trade.seller then
        .error .Unauthorized
      else .ok ((), save_trade s trade_id { trade with status := .Disputed })

/-- The `match resolution` block inside `resolve_dispute` choosing the
payout recipient (a single exhaustive match with no default case). -/
def recipientOf (t : Trade) (resolution : DisputeResolution) : Addr :=
  match resolution with
  | .ReleaseToBuyer => t.buyer
  | .ReleaseToSeller => t.seller

/-- `StellarEscrowContract::resolve_dispute`.  As with `confirm_receipt`,
the source never writes back a status, so the stored status stays
`Disputed` after a successful call. -/
def resolve_dispute (s : EscrowState) (trade_id : Nat)
    (resolution : DisputeResolution) :
    Except ContractError (Unit × EscrowState) :=
  if !is_initialized s then .error .NotInitialized
  else
    match get_trade s trade_id with
    | .error e => .error e
    | .ok trade =>
      if trade.status ≠ .Disputed then .error .InvalidStatus
      else
        match trade.arbitrator with
        | none => .error .ArbitratorNotRegistered
        | some _ =>
          match get_usdc_token s with
          | .error e => .error e
          | .ok _ =>
            match checked_sub trade.amount trade.fee with
            | none => .error .Overflow
            | some payout =>
              match get_accumulated_fees (transferTok s s.contractAddr
                  (recipientOf trade resolution) payout) with
              | .error e => .error e
              | .ok current_fees =>
                match checked_add current_fees trade.fee with
                | none => .error .Overflow
                | some new_fees =>
                  .ok ((), set_accumulated_fees (transferTok s
                    s.contractAddr (recipientOf trade resolution) payout)
                    new_fees)

/-- `StellarEscrowContract::cancel_trade`. -/
def cancel_trade (s : EscrowState) (trade_id : Nat) :
    Except ContractError (Unit × EscrowState) :=
  if !is_initialized s then .error .NotInitialized
  else
    match get_trade s trade_id with
    | .error e => .error e
    | .ok trade =>
      if trade.status ≠ .Created then .error .InvalidStatus
      else .ok ((), save_trade s trade_id { trade with status := .Cancelled })

/-- `StellarEscrowContract::get_trade` (read-only entry point; delegates
to storage with no initialization check). -/
def get_trade_fn (s : EscrowState) (trade_id : Nat) :
    Except ContractError Trade :=
  get_trade s trade_id

/-- `StellarEscrowContract::get_accumulated_fees` (read-only entry
point). -/
def get_accumulated_fees_fn (s : EscrowState) : Except ContractError Nat :=
  get_accumulated_fees s

/-- `StellarEscrowContract::is_arbitrator_registered` (read-only entry
point; returns a plain boolean, no error channel). -/
def is_arbitrator_registered (s : EscrowState) (arb : Addr) : Bool :=
  has_arbitrator s arb

/-- `StellarEscrowContract::get_platform_fee_bps` (read-only entry
point). -/
def get_platform_fee_bps (s : EscrowState) : Except ContractError Nat :=
  get_fee_bps s

/-- The host commit: a successful invocation commits the new state, a
failed one rolls everything back to the pre-call state. -/
def commit {α : Type} (r : Except ContractError (α × EscrowState))
    (s : EscrowState) : EscrowState :=
  match r with
  | .ok (_, s1) => s1
  | .error _ => s

/-- Boolean success test on a contract-call result. -/
def callOk {α : Type} (r : Except ContractError (α × EscrowState)) : Bool :=
  match r with
  | .ok _ => true
  | .error _ => false

/-! ## Reachability and the state invariant -/

/-- States reachable from a fresh deployment by committed (successful)
contract calls.  Failed calls roll back, so they do not change the
state and need no constructor. -/
inductive Reachable : EscrowState → Prop where
  | deploy (ca : Addr) : Reachable (emptyState ca)
  | init {s s' : EscrowState} {a u f : Nat} {x : Unit} :
      Reachable s → initContract s a u f = .ok (x, s') → Reachable s'
  | reg {s s' : EscrowState} {a : Addr} {x : Unit} :
      Reachable s → register_arbitrator s a = .ok (x, s') → Reachable s'
  | unreg {s s' : EscrowState} {a : Addr} {x : Unit} :
      Reachable s → remove_arbitrator_fn s a = .ok (x, s') → Reachable s'
  | fee {s s' : EscrowState} {f : Nat} {x : Unit} :
      Reachable s → update_fee s f = .ok (x, s') → Reachable s'
  | withdraw {s s' : EscrowState} {d : Addr} {x : Unit} :
      Reachable s → withdraw_fees s d = .ok (x, s') → Reachable s'
  | create {s s' : EscrowState} {se b am : Nat} {arb : Option Addr}
      {tid : Nat} :
      Reachable s → create_trade s se b am arb = .ok (tid, s') →
      Reachable s'
  | fund {s s' : EscrowState} {tid : Nat} {x : Unit} :
      Reachable s → fund_trade s tid = .ok (x, s') → Reachable s'
  | complete {s s' : EscrowState} {tid : Nat} {x : Unit} :
      Reachable s → complete_trade s tid = .ok (x, s') → Reachable s'
  | confirm {s s' : EscrowState} {tid : Nat} {x : Unit} :
      Reachable s → confirm_receipt s tid = .ok (x, s') → Reachable s'
  | dispute {s s' : EscrowState} {tid caller : Nat} {x : Unit} :
      Reachable s → raise_dispute s tid caller = .ok (x, s') → Reachable s'
  | resolve {s s' : EscrowState} {tid : Nat} {r : DisputeResolution}
      {x : Unit} :
      Reachable s → resolve_dispute s tid r = .ok (x, s') → Reachable s'
  | cancel {s s' : EscrowState} {tid : Nat} {x : Unit} :
      Reachable s → cancel_trade s tid = .ok (x, s') → Reachable s'

/-- The state invariant maintained by every contract operation: the
stored fee rate never exceeds 10000 basis points, every stored trade
has `fee ≤ amount`, every stored trade id lies between 1 and the
current counter value, and no trade exists before initialization. -/
def Inv (s : EscrowState) : Prop :=
  (∀ b, s.feeBps = some b → b ≤ 10000) ∧
  (∀ id t, s.trades id = some t → t.fee ≤ t.amount) ∧
  (∀ id t c, s.trades id = some t → s.tradeCounter = some c →
    1 ≤ id ∧ id ≤ c) ∧
  (s.inited = false → ∀ id, s.trades id = none)

/-! ## Concrete executions used as witnesses

A settlement run mirroring `test_complete_trade_flow`: admin 1,
token 2, fee 250 bps, seller 3, buyer 4, amount 10000. -/

/-- Fresh deployment at contract address 0. -/
def dS0 : EscrowState := emptyState 0

/-- After `initialize(1, 2, 250)`. -/
def dS1 : EscrowState := commit (initContract dS0 1 2 250) dS0

/-- After `create_trade(3, 4, 10000, None)` (trade id 1). -/
def dS2 : EscrowState := commit (create_trade dS1 3 4 10000 none) dS1

/-- After `fund_trade(1)`. -/
def dS3 : EscrowState := commit (fund_trade dS2 1) dS2

/-- After `complete_trade(1)`. -/
def dS4 : EscrowState := commit (complete_trade dS3 1) dS3

/-- After the first `confirm_receipt(1)`. -/
def dS5 : EscrowState := commit (confirm_receipt dS4 1) dS4

/-- Dispute run: after `register_arbitrator(9)` on `dS1`. -/
def aS1 : EscrowState := commit (register_arbitrator dS1 9) dS1

/-- After `create_trade(3, 4, 10000, Some(9))` (trade id 1). -/
def aS2 : EscrowState := commit (create_trade aS1 3 4 10000 (some 9)) aS1

/-- After `fund_trade(1)`. -/
def aS3 : EscrowState := commit (fund_trade aS2 1) aS2

/-- After `raise_dispute(1)` invoked by the buyer (address 4). -/
def aS4 : EscrowState := commit (raise_dispute aS3 1 4) aS3

/-- After `remove_arbitrator_fn(9)`. -/
def aS5 : EscrowState := commit (remove_arbitrator_fn aS4 9) aS4

/-- After the first `resolve_dispute(1, ReleaseToBuyer)` on the disputed
trade. -/
def rS1 : EscrowState :=
  commit (resolve_dispute aS4 1 .ReleaseToBuyer) aS4

/-- After `create_trade(7, 7, 10000, None)` on the initialized state:
seller and buyer are the same address. -/
def cS : EscrowState := commit (create_trade dS1 7 7 10000 none) dS1

/-- The trade record stored under id 1 in `aS4` (disputed, arbitrator 9
pinned at creation). -/
def tA : Trade :=
  { id := 1, seller := 3, buyer := 4, amount := 10000, fee := 250
    arbitrator := some 9, status := .Disputed }

/-! ## Field-effect lemmas for the storage primitives -/

@[simp] theorem save_trade_feeBps (s : EscrowState) (id : Nat) (t : Trade) :
    (save_trade s id t).feeBps = s.feeBps := rfl

@[simp] theorem save_trade_tradeCounter (s : EscrowState) (id : Nat)
    (t : Trade) : (save_trade s id t).tradeCounter = s.tradeCounter := rfl

@[simp] theorem save_trade_inited (s : EscrowState) (id : Nat) (t : Trade) :
    (save_trade s id t).inited = s.inited := rfl

@[simp] theorem save_trade_trades (s : EscrowState) (id : Nat) (t : Trade)
    (k : Nat) :
    (save_trade s id t).trades k = if k = id then some t else s.trades k :=
  rfl

@[simp] theorem set_trade_counter_feeBps (s : EscrowState) (c : Nat) :
    (set_trade_counter s c).feeBps = s.feeBps := rfl

@[simp] theorem set_trade_counter_trades (s : EscrowState) (c : Nat) :
    (set_trade_counter s c).trades = s.trades := rfl

@[simp] theorem set_trade_counter_inited (s : EscrowState) (c : Nat) :
    (set_trade_counter s c).inited = s.inited := rfl

@[simp] theorem set_trade_counter_tradeCounter (s : EscrowState) (c : Nat) :
    (set_trade_counter s c).tradeCounter = some c := rfl

@[simp] theorem transferTok_feeBps (s : EscrowState) (a b n : Nat) :
    (transferTok s a b n).feeBps = s.feeBps := rfl

@[simp] theorem transferTok_trades (s : EscrowState) (a b n : Nat) :
    (transferTok s a b n).trades = s.trades := rfl

@[simp] theorem transferTok_tradeCounter (s : EscrowState) (a b n : Nat) :
    (transferTok s a b n).tradeCounter = s.tradeCounter := rfl

@[simp] theorem transferTok_inited (s : EscrowState) (a b n : Nat) :
    (transferTok s a b n).inited = s.inited := rfl

@[simp] theorem set_accumulated_fees_feeBps (s : EscrowState) (f : Nat) :
    (set_accumulated_fees s f).feeBps = s.feeBps := rfl

@[simp] theorem set_accumulated_fees_trades (s : EscrowState) (f : Nat) :
    (set_accumulated_fees s f).trades = s.trades := rfl

@[simp] theorem set_accumulated_fees_tradeCounter (s : EscrowState)
    (f : Nat) : (set_accumulated_fees s f).tradeCounter = s.tradeCounter :=
  rfl

@[simp] theorem set_accumulated_fees_inited (s : EscrowState) (f : Nat) :
    (set_accumulated_fees s f).inited = s.inited := rfl

@[simp] theorem save_arbitrator_feeBps (s : EscrowState) (a : Addr) :
    (save_arbitrator s a).feeBps = s.feeBps := rfl

@[simp] theorem save_arbitrator_trades (s : EscrowState) (a : Addr) :
    (save_arbitrator s a).trades = s.trades := rfl

@[simp] theorem save_arbitrator_tradeCounter (s : EscrowState) (a : Addr) :
    (save_arbitrator s a).tradeCounter = s.tradeCounter := rfl

@[simp] theorem save_arbitrator_inited (s : EscrowState) (a : Addr) :
    (save_arbitrator s a).inited = s.inited := rfl

@[simp] theorem remove_arbitrator_feeBps (s : EscrowState) (a : Addr) :
    (remove_arbitrator s a).feeBps = s.feeBps := rfl

@[simp] theorem remove_arbitrator_trades (s : EscrowState) (a : Addr) :
    (remove_arbitrator s a).trades = s.trades := rfl

@[simp] theorem remove_arbitrator_tradeCounter (s : EscrowState) (a : Addr) :
    (remove_arbitrator s a).tradeCounter = s.tradeCounter := rfl

@[simp] theorem remove_arbitrator_inited (s : EscrowState) (a : Addr) :
    (remove_arbitrator s a).inited = s.inited := rfl

@[simp] theorem set_fee_bps_trades (s : EscrowState) (v : Nat) :
    (set_fee_bps s v).trades = s.trades := rfl

@[simp] theorem set_fee_bps_tradeCounter (s : EscrowState) (v : Nat) :
    (set_fee_bps s v).tradeCounter = s.tradeCounter := rfl

@[simp] theorem set_fee_bps_inited (s : EscrowState) (v : Nat) :
    (set_fee_bps s v).inited = s.inited := rfl

@[simp] theorem set_fee_bps_feeBps (s : EscrowState) (v : Nat) :
    (set_fee_bps s v).feeBps = some v := rfl

@[simp] theorem transferTok_accumulatedFees (s : EscrowState) (a b n : Nat) :
    (transferTok s a b n).accumulatedFees = s.accumulatedFees := rfl

@[simp] theorem transferTok_contractAddr (s : EscrowState) (a b n : Nat) :
    (transferTok s a b n).contractAddr = s.contractAddr := rfl

@[simp] theorem transferTok_transfers (s : EscrowState) (a b n : Nat) :
    (transferTok s a b n).transfers = s.transfers ++ [(a, b, n)] := rfl

@[simp] theorem set_accumulated_fees_accumulatedFees (s : EscrowState)
    (f : Nat) : (set_accumulated_fees s f).accumulatedFees = some f := rfl

@[simp] theorem set_accumulated_fees_transfers (s : EscrowState) (f : Nat) :
    (set_accumulated_fees s f).transfers = s.transfers := rfl

@[simp] theorem save_trade_arbitrators (s : EscrowState) (id : Nat)
    (t : Trade) : (save_trade s id t).arbitrators = s.arbitrators := rfl

@[simp] theorem save_trade_usdcToken (s : EscrowState) (id : Nat)
    (t : Trade) : (save_trade s id t).usdcToken = s.usdcToken := rfl

@[simp] theorem save_trade_accumulatedFees (s : EscrowState) (id : Nat)
    (t : Trade) : (save_trade s id t).accumulatedFees = s.accumulatedFees :=
  rfl

@[simp] theorem remove_arbitrator_arbitrators (s : EscrowState) (a k : Addr) :
    (remove_arbitrator s a).arbitrators k =
      if k = a then false else s.arbitrators k := rfl

@[simp] theorem remove_arbitrator_usdcToken (s : EscrowState) (a : Addr) :
    (remove_arbitrator s a).usdcToken = s.usdcToken := rfl

@[simp] theorem remove_arbitrator_accumulatedFees (s : EscrowState)
    (a : Addr) :
    (remove_arbitrator s a).accumulatedFees = s.accumulatedFees := rfl

@[simp] theorem remove_arbitrator_contractAddr (s : EscrowState) (a : Addr) :
    (remove_arbitrator s a).contractAddr = s.contractAddr := rfl

@[simp] theorem remove_arbitrator_admin (s : EscrowState) (a : Addr) :
    (remove_arbitrator s a).admin = s.admin := rfl

@[simp] theorem set_fee_bps_accumulatedFees (s : EscrowState) (v : Nat) :
    (set_fee_bps s v).accumulatedFees = s.accumulatedFees := rfl

@[simp] theorem set_fee_bps_admin (s : EscrowState) (v : Nat) :
    (set_fee_bps s v).admin = s.admin := rfl

@[simp] theorem set_fee_bps_usdcToken (s : EscrowState) (v : Nat) :
    (set_fee_bps s v).usdcToken = s.usdcToken := rfl

@[simp] theorem set_fee_bps_arbitrators (s : EscrowState) (v : Nat) :
    (set_fee_bps s v).arbitrators = s.arbitrators := rfl

@[simp] theorem set_fee_bps_transfers (s : EscrowState) (v : Nat) :
    (set_fee_bps s v).transfers = s.transfers := rfl

/-! ## Inversion lemmas: the shape of a successful call -/

theorem get_trade_ok {s : EscrowState} {id : Nat} {t : Trade}
    (h : get_trade s id = .ok t) : s.trades id = some t := by
  unfold get_trade at h
  split at h
  · rename_i t' ht
    cases h
    exact ht
  · exact Except.noConfusion h

theorem get_fee_bps_ok {s : EscrowState} {v : Nat}
    (h : get_fee_bps s = .ok v) : s.feeBps = some v := by
  unfold get_fee_bps at h
  split at h
  · rename_i v' hv
    cases h
    exact hv
  · exact Except.noConfusion h

theorem get_trade_counter_ok {s : EscrowState} {c : Nat}
    (h : get_trade_counter s = .ok c) : s.tradeCounter = some c := by
  unfold get_trade_counter at h
  split at h
  · rename_i c' hc
    cases h
    exact hc
  · exact Except.noConfusion h

theorem get_accumulated_fees_ok {s : EscrowState} {f : Nat}
    (h : get_accumulated_fees s = .ok f) : s.accumulatedFees = some f := by
  unfold get_accumulated_fees at h
  split at h
  · rename_i f' hf
    cases h
    exact hf
  · exact Except.noConfusion h

theorem checked_add_ok {a b n : Nat} (h : checked_add a b = some n) :
    a + b ≤ U64_MAX ∧ n = a + b := by
  unfold checked_add at h
  split at h
  · rename_i hle
    cases h
    exact ⟨hle, rfl⟩
  · exact Option.noConfusion h

theorem checked_mul_ok {a b n : Nat} (h : checked_mul a b = some n) :
    a * b ≤ U64_MAX ∧ n = a * b := by
  unfold checked_mul at h
  split at h
  · rename_i hle
    cases h
    exact ⟨hle, rfl⟩
  · exact Option.noConfusion h

theorem checked_sub_ok {a b n : Nat} (h : checked_sub a b = some n) :
    b ≤ a ∧ n = a - b := by
  unfold checked_sub at h
  split at h
  · rename_i hle
    cases h
    exact ⟨hle, rfl⟩
  · exact Option.noConfusion h

theorem checked_div_ok {a b n : Nat} (h : checked_div a b = some n) :
    b ≠ 0 ∧ n = a / b := by
  unfold checked_div at h
  split at h
  · exact Option.noConfusion h
  · rename_i hb
    cases h
    exact ⟨hb, rfl⟩

theorem increment_trade_counter_ok {s s1 : EscrowState} {n : Nat}
    (h : increment_trade_counter s = .ok (n, s1)) :
    ∃ c, s.tradeCounter = some c ∧ c + 1 ≤ U64_MAX ∧ n = c + 1 ∧
      s1 = set_trade_counter s (c + 1) := by
  unfold increment_trade_counter at h
  split at h
  · exact Except.noConfusion h
  · rename_i current heq
    split at h
    · exact Except.noConfusion h
    · rename_i next hadd
      cases h
      obtain ⟨hle, hn⟩ := checked_add_ok hadd
      subst hn
      exact ⟨current, get_trade_counter_ok heq, hle, rfl, rfl⟩

theorem initContract_ok {s s' : EscrowState} {a u f : Nat} {x : Unit}
    (h : initContract s a u f = .ok (x, s')) :
    s.inited = false ∧ f ≤ 10000 ∧
    s' = { s with
           admin := some a
           usdcToken := some u
           feeBps := some f
           tradeCounter := some 0
           accumulatedFees := some 0
           inited := true } := by
  unfold initContract is_initialized at h
  split at h
  · exact Except.noConfusion h
  · rename_i h1
    split at h
    · exact Except.noConfusion h
    · rename_i h2
      cases h
      exact ⟨by simpa using h1, by omega, rfl⟩

theorem register_arbitrator_ok {s s' : EscrowState} {a : Addr} {x : Unit}
    (h : register_arbitrator s a = .ok (x, s')) :
    s.inited = true ∧ s' = save_arbitrator s a := by
  unfold register_arbitrator is_initialized at h
  split at h
  · exact Except.noConfusion h
  · rename_i h1
    split at h
    · exact Except.noConfusion h
    · cases h
      exact ⟨by simpa using h1, rfl⟩

theorem remove_arbitrator_fn_ok {s s' : EscrowState} {a : Addr} {x : Unit}
    (h : remove_arbitrator_fn s a = .ok (x, s')) :
    s.inited = true ∧ s' = remove_arbitrator s a := by
  unfold remove_arbitrator_fn is_initialized at h
  split at h
  · exact Except.noConfusion h
  · rename_i h1
    split at h
    · exact Except.noConfusion h
    · cases h
      exact ⟨by simpa using h1, rfl⟩

theorem update_fee_ok {s s' : EscrowState} {f : Nat} {x : Unit}
    (h : update_fee s f = .ok (x, s')) :
    s.inited = true ∧ f ≤ 10000 ∧ s' = set_fee_bps s f := by
  unfold update_fee is_initialized at h
  split at h
  · exact Except.noConfusion h
  · rename_i h1
    split at h
    · exact Except.noConfusion h
    · rename_i h2
      split at h
      · exact Except.noConfusion h
      · cases h
        exact ⟨by simpa using h1, by omega, rfl⟩

theorem withdraw_fees_ok {s s' : EscrowState} {d : Addr} {x : Unit}
    (h : withdraw_fees s d = .ok (x, s')) :
    ∃ fees, s.accumulatedFees = some fees ∧ fees ≠ 0 ∧
      s' = set_accumulated_fees (transferTok s s.contractAddr d fees) 0 := by
  unfold withdraw_fees is_initialized at h
  split at h
  · exact Except.noConfusion h
  · split at h
    · exact Except.noConfusion h
    · split at h
      · exact Except.noConfusion h
      · rename_i fees hf
        split at h
        · exact Except.noConfusion h
        · rename_i hne
          split at h
          · exact Except.noConfusion h
          · cases h
            exact ⟨fees, get_accumulated_fees_ok hf, hne, rfl⟩

theorem create_trade_ok {s s' : EscrowState} {se b am : Nat}
    {arb : Option Addr} {tid : Nat}
    (h : create_trade s se b am arb = .ok (tid, s')) :
    ∃ c bps,
      s.inited = true ∧ am ≠ 0 ∧
      (arb.all fun a => has_arbitrator s a) = true ∧
      s.tradeCounter = some c ∧ c + 1 ≤ U64_MAX ∧ tid = c + 1 ∧
      s.feeBps = some bps ∧ am * bps ≤ U64_MAX ∧
      s' = save_trade (set_trade_counter s (c + 1)) (c + 1)
             { id := c + 1, seller := se, buyer := b, amount := am
               fee := am * bps / 10000, arbitrator := arb
               status := .Created } := by
  unfold create_trade is_initialized at h
  split at h
  · exact Except.noConfusion h
  · rename_i h1
    split at h
    · exact Except.noConfusion h
    · rename_i h2
      split at h
      · exact Except.noConfusion h
      · rename_i h3
        split at h
        · exact Except.noConfusion h
        · rename_i tid1 s1 hinc
          split at h
          · exact Except.noConfusion h
          · rename_i bps hbps
            split at h
            · exact Except.noConfusion h
            · rename_i p hmul
              split at h
              · exact Except.noConfusion h
              · rename_i fee hdiv
                cases h
                obtain ⟨c, hc, hle, htid, hs1⟩ :=
                  increment_trade_counter_ok hinc
                obtain ⟨hmle, hp⟩ := checked_mul_ok hmul
                obtain ⟨hdz, hfee⟩ := checked_div_ok hdiv
                subst hs1
                have hbps' : s.feeBps = some bps := by
                  simpa using get_fee_bps_ok hbps
                subst htid hp hfee
                exact ⟨c, bps, by simpa using h1, h2, by simpa using h3,
                       hc, hle, rfl, hbps', hmle, rfl⟩

theorem fund_trade_ok {s s' : EscrowState} {tid : Nat} {x : Unit}
    (h : fund_trade s tid = .ok (x, s')) :
    ∃ t, s.inited = true ∧ s.trades tid = some t ∧ t.status = .Created ∧
      s' = save_trade (transferTok s t.buyer s.contractAddr t.amount) tid
             { t with status := .Funded } := by
  unfold fund_trade is_initialized at h
  split at h
  · exact Except.noConfusion h
  · rename_i h1
    split at h
    · exact Except.noConfusion h
    · rename_i t ht
      split at h
      · exact Except.noConfusion h
      · rename_i h2
        split at h
        · exact Except.noConfusion h
        · cases h
          exact ⟨t, by simpa using h1, get_trade_ok ht,
                 by simpa using h2, rfl⟩

theorem complete_trade_ok {s s' : EscrowState} {tid : Nat} {x : Unit}
    (h : complete_trade s tid = .ok (x, s')) :
    ∃ t, s.inited = true ∧ s.trades tid = some t ∧ t.status = .Funded ∧
      s' = save_trade s tid { t with status := .Completed } := by
  unfold complete_trade is_initialized at h
  split at h
  · exact Except.noConfusion h
  · rename_i h1
    split at h
    · exact Except.noConfusion h
    · rename_i t ht
      split at h
      · exact Except.noConfusion h
      · rename_i h2
        cases h
        exact ⟨t, by simpa using h1, get_trade_ok ht,
               by simpa using h2, rfl⟩

theorem cancel_trade_ok {s s' : EscrowState} {tid : Nat} {x : Unit}
    (h : cancel_trade s tid = .ok (x, s')) :
    ∃ t, s.inited = true ∧ s.trades tid = some t ∧ t.status = .Created ∧
      s' = save_trade s tid { t with status := .Cancelled } := by
  unfold cancel_trade is_initialized at h
  split at h
  · exact Except.noConfusion h
  · rename_i h1
    split at h
    · exact Except.noConfusion h
    · rename_i t ht
      split at h
      · exact Except.noConfusion h
      · rename_i h2
        cases h
        exact ⟨t, by simpa using h1, get_trade_ok ht,
               by simpa using h2, rfl⟩

theorem confirm_receipt_ok {s s' : EscrowState} {tid : Nat} {x : Unit}
    (h : confirm_receipt s tid = .ok (x, s')) :
    ∃ t cur, s.inited = true ∧ s.trades tid = some t ∧
      t.status = .Completed ∧ t.fee ≤ t.amount ∧
      s.accumulatedFees = some cur ∧ cur + t.fee ≤ U64_MAX ∧
      s' = set_accumulated_fees
             (transferTok s s.contractAddr t.seller (t.amount - t.fee))
             (cur + t.fee) := by
  unfold confirm_receipt is_initialized at h
  split at h
  · exact Except.noConfusion h
  · rename_i h1
    split at h
    · exact Except.noConfusion h
    · rename_i t ht
      split at h
      · exact Except.noConfusion h
      · rename_i h2
        split at h
        · exact Except.noConfusion h
        · split at h
          · exact Except.noConfusion h
          · rename_i payout hsub
            split at h
            · exact Except.noConfusion h
            · rename_i cur hcur
              split at h
              · exact Except.noConfusion h
              · rename_i nf hadd
                cases h
                obtain ⟨hfle, hpay⟩ := checked_sub_ok hsub
                obtain ⟨hale, hnf⟩ := checked_add_ok hadd
                have hcur' : s.accumulatedFees = some cur := by
                  simpa using get_accumulated_fees_ok hcur
                subst hpay hnf
                exact ⟨t, cur, by simpa using h1, get_trade_ok ht,
                       by simpa using h2, hfle, hcur', hale, rfl⟩

theorem raise_dispute_ok {s s' : EscrowState} {tid caller : Nat} {x : Unit}
    (h : raise_dispute s tid caller = .ok (x, s')) :
    ∃ t, s.inited = true ∧ s.trades tid = some t ∧
      (t.status = .Funded ∨ t.status = .Completed) ∧
      t.arbitrator ≠ none ∧ (caller = t.buyer ∨ caller = t.seller) ∧
      s' = save_trade s tid { t with status := .Disputed } := by
  unfold raise_dispute is_initialized at h
  split at h
  · exact Except.noConfusion h
  · rename_i h1
    split at h
    · exact Except.noConfusion h
    · rename_i t ht
      split at h
      · exact Except.noConfusion h
      · rename_i h2
        split at h
        · exact Except.noConfusion h
        · rename_i h3
          split at h
          · exact Except.noConfusion h
          · rename_i h4
            cases h
            refine ⟨t, by simpa using h1, get_trade_ok ht, ?_, h3, ?_, rfl⟩
            · simpa only [ne_eq, not_and_or, not_not] using h2
            · simpa only [ne_eq, not_and_or, not_not] using h4

theorem resolve_dispute_ok {s s' : EscrowState} {tid : Nat}
    {res : DisputeResolution} {x : Unit}
    (h : resolve_dispute s tid res = .ok (x, s')) :
    ∃ t arb cur, s.inited = true ∧ s.trades tid = some t ∧
      t.status = .Disputed ∧ t.arbitrator = some arb ∧ t.fee ≤ t.amount ∧
      s.accumulatedFees = some cur ∧ cur + t.fee ≤ U64_MAX ∧
      s' = set_accumulated_fees
             (transferTok s s.contractAddr (recipientOf t res)
               (t.amount - t.fee))
             (cur + t.fee) := by
  unfold resolve_dispute is_initialized at h
  split at h
  · exact Except.noConfusion h
  · rename_i h1
    split at h
    · exact Except.noConfusion h
    · rename_i t ht
      split at h
      · exact Except.noConfusion h
      · rename_i h2
        split at h
        · exact Except.noConfusion h
        · rename_i arb harb
          split at h
          · exact Except.noConfusion h
          · split at h
            · exact Except.noConfusion h
            · rename_i payout hsub
              split at h
              · exact Except.noConfusion h
              · rename_i cur hcur
                split at h
                · exact Except.noConfusion h
                · rename_i nf hadd
                  cases h
                  obtain ⟨hfle, hpay⟩ := checked_sub_ok hsub
                  obtain ⟨hale, hnf⟩ := checked_add_ok hadd
                  have hcur' : s.accumulatedFees = some cur := by
                    simpa using get_accumulated_fees_ok hcur
                  subst hpay hnf
                  exact ⟨t, arb, cur, by simpa using h1, get_trade_ok ht,
                         by simpa using h2, harb, hfle, hcur', hale, rfl⟩

/-! ## Preservation of the state invariant -/

theorem inv_emptyState (ca : Addr) : Inv (emptyState ca) := by
  refine ⟨?_, ?_, ?_, ?_⟩
  · intro b hb
    simp [emptyState] at hb
  · intro i t ht
    simp [emptyState] at ht
  · intro i t c ht hc
    simp [emptyState] at ht
  · intro _ i
    rfl

theorem inv_frame {s s' : EscrowState}
    (hf : s'.feeBps = s.feeBps) (ht : s'.trades = s.trades)
    (hc : s'.tradeCounter = s.tradeCounter) (hi : s'.inited = s.inited)
    (h : Inv s) : Inv s' := by
  obtain ⟨h1, h2, h3, h4⟩ := h
  refine ⟨?_, ?_, ?_, ?_⟩
  · intro b hb
    rw [hf] at hb
    exact h1 b hb
  · intro i t htd
    rw [ht] at htd
    exact h2 i t htd
  · intro i t c htd hcc
    rw [ht] at htd
    rw [hc] at hcc
    exact h3 i t c htd hcc
  · intro hin i
    rw [hi] at hin
    rw [ht]
    exact h4 hin i

theorem inv_save_status {s : EscrowState} {id : Nat} {t : Trade}
    (st : TradeStatus) (hInv : Inv s) (ht : s.trades id = some t)
    (hin : s.inited = true) :
    Inv (save_trade s id { t with status := st }) := by
  obtain ⟨h1, h2, h3, h4⟩ := hInv
  refine ⟨?_, ?_, ?_, ?_⟩
  · intro b hb
    exact h1 b hb
  · intro i u hu
    simp only [save_trade_trades] at hu
    by_cases hii : i = id
    · subst hii
      rw [if_pos rfl] at hu
      cases hu
      exact h2 i t ht
    · rw [if_neg hii] at hu
      exact h2 i u hu
  · intro i u cc hu hcc
    simp only [save_trade_trades] at hu
    have hcc' : s.tradeCounter = some cc := hcc
    by_cases hii : i = id
    · subst hii
      exact h3 i t cc ht hcc'
    · rw [if_neg hii] at hu
      exact h3 i u cc hu hcc'
  · intro hf
    have hf' : s.inited = false := hf
    rw [hin] at hf'
    exact Bool.noConfusion hf'

theorem inv_preserved_init {s s' : EscrowState} {a u f : Nat} {x : Unit}
    (hInv : Inv s) (h : initContract s a u f = .ok (x, s')) : Inv s' := by
  obtain ⟨hni, hf, hs'⟩ := initContract_ok h
  obtain ⟨h1, h2, h3, h4⟩ := hInv
  have hempty := h4 hni
  subst hs'
  refine ⟨?_, ?_, ?_, ?_⟩
  · intro b hb
    have hb' : some f = some b := hb
    cases hb'
    omega
  · intro i t ht
    have ht' : s.trades i = some t := ht
    rw [hempty i] at ht'
    exact Option.noConfusion ht'
  · intro i t c ht hc
    have ht' : s.trades i = some t := ht
    rw [hempty i] at ht'
    exact Option.noConfusion ht'
  · intro hfalse
    have hfalse' : true = false := hfalse
    exact Bool.noConfusion hfalse'

theorem inv_preserved_update_fee {s s' : EscrowState} {f : Nat} {x : Unit}
    (hInv : Inv s) (h : update_fee s f = .ok (x, s')) : Inv s' := by
  obtain ⟨hin, hf, hs'⟩ := update_fee_ok h
  subst hs'
  obtain ⟨h1, h2, h3, h4⟩ := hInv
  refine ⟨?_, h2, h3, ?_⟩
  · intro b hb
    have hb' : some f = some b := hb
    cases hb'
    omega
  · intro hfalse
    have hfalse' : s.inited = false := hfalse
    rw [hin] at hfalse'
    exact Bool.noConfusion hfalse'

theorem inv_preserved_create {s s' : EscrowState} {se b am : Nat}
    {arb : Option Addr} {tid : Nat} (hInv : Inv s)
    (h : create_trade s se b am arb = .ok (tid, s')) : Inv s' := by
  obtain ⟨c, bps, hin, ham, harb, hc, hle, htid, hbps, hmle, hs'⟩ :=
    create_trade_ok h
  obtain ⟨h1, h2, h3, h4⟩ := hInv
  have hfee_le : am * bps / 10000 ≤ am := by
    have hb : bps ≤ 10000 := h1 bps hbps
    calc am * bps / 10000 ≤ am * 10000 / 10000 :=
          Nat.div_le_div_right (Nat.mul_le_mul_left am hb)
      _ = am := Nat.mul_div_cancel am (by norm_num)
  subst hs'
  refine ⟨?_, ?_, ?_, ?_⟩
  · intro v hv
    exact h1 v hv
  · intro i u hu
    simp only [save_trade_trades, set_trade_counter_trades] at hu
    by_cases hii : i = c + 1
    · subst hii
      rw [if_pos rfl] at hu
      cases hu
      exact hfee_le
    · rw [if_neg hii] at hu
      exact h2 i u hu
  · intro i u cc hu hcc
    simp only [save_trade_trades, set_trade_counter_trades] at hu
    simp only [save_trade_tradeCounter, set_trade_counter_tradeCounter]
      at hcc
    cases hcc
    by_cases hii : i = c + 1
    · subst hii
      exact ⟨by omega, le_refl _⟩
    · rw [if_neg hii] at hu
      obtain ⟨hi1, hi2⟩ := h3 i u c hu hc
      exact ⟨hi1, by omega⟩
  · intro hf
    have hf' : s.inited = false := hf
    rw [hin] at hf'
    exact Bool.noConfusion hf'

theorem reachable_inv {s : EscrowState} (h : Reachable s) : Inv s := by
  induction h with
  | deploy ca => exact inv_emptyState ca
  | init _ hok ih => exact inv_preserved_init ih hok
  | reg _ hok ih =>
    obtain ⟨hin, hs'⟩ := register_arbitrator_ok hok
    subst hs'
    exact inv_frame rfl rfl rfl rfl ih
  | unreg _ hok ih =>
    obtain ⟨hin, hs'⟩ := remove_arbitrator_fn_ok hok
    subst hs'
    exact inv_frame rfl rfl rfl rfl ih
  | fee _ hok ih => exact inv_preserved_update_fee ih hok
  | withdraw _ hok ih =>
    obtain ⟨fees, hf, hne, hs'⟩ := withdraw_fees_ok hok
    subst hs'
    exact inv_frame rfl rfl rfl rfl ih
  | create _ hok ih => exact inv_preserved_create ih hok
  | fund _ hok ih =>
    obtain ⟨t, hin, ht, hst, hs'⟩ := fund_trade_ok hok
    subst hs'
    exact inv_save_status _ (inv_frame rfl rfl rfl rfl ih) ht hin
  | complete _ hok ih =>
    obtain ⟨t, hin, ht, hst, hs'⟩ := complete_trade_ok hok
    subst hs'
    exact inv_save_status _ ih ht hin
  | confirm _ hok ih =>
    obtain ⟨t, cur, hin, ht, hst, hfle, hcur, hale, hs'⟩ :=
      confirm_receipt_ok hok
    subst hs'
    exact inv_frame rfl rfl rfl rfl ih
  | dispute _ hok ih =>
    obtain ⟨t, hin, ht, hst, harb, hcall, hs'⟩ := raise_dispute_ok hok
    subst hs'
    exact inv_save_status _ ih ht hin
  | resolve _ hok ih =>
    obtain ⟨t, arb, cur, hin, ht, hst, harb, hfle, hcur, hale, hs'⟩ :=
      resolve_dispute_ok hok
    subst hs'
    exact inv_frame rfl rfl rfl rfl ih
  | cancel _ hok ih =>
    obtain ⟨t, hin, ht, hst, hs'⟩ := cancel_trade_ok hok
    subst hs'
    exact inv_save_status _ ih ht hin

/-! ## Forward-evaluation helpers -/

theorem get_trade_of_some {s : EscrowState} {id : Nat} {t : Trade}
    (ht : s.trades id = some t) : get_trade s id = .ok t := by
  unfold get_trade
  rw [ht]

theorem increment_run {s : EscrowState} {c : Nat}
    (hc : s.tradeCounter = some c) (hc1 : c + 1 ≤ U64_MAX) :
    increment_trade_counter s = .ok (c + 1, set_trade_counter s (c + 1)) := by
  unfold increment_trade_counter get_trade_counter checked_add
  rw [hc]
  simp [hc1]

/-- Full evaluation of a successful `create_trade` call. -/
theorem create_trade_run (s : EscrowState) (se b am bps c : Nat)
    (arb : Option Addr) (hin : s.inited = true) (ham : am ≠ 0)
    (harb : (arb.all fun a => has_arbitrator s a) = true)
    (hc : s.tradeCounter = some c) (hc1 : c + 1 ≤ U64_MAX)
    (hbps : s.feeBps = some bps) (hmul : am * bps ≤ U64_MAX) :
    create_trade s se b am arb =
      .ok (c + 1, save_trade (set_trade_counter s (c + 1)) (c + 1)
        { id := c + 1, seller := se, buyer := b, amount := am
          fee := am * bps / 10000, arbitrator := arb
          status := .Created }) := by
  have hfb : get_fee_bps (set_trade_counter s (c + 1)) = .ok bps := by
    unfold get_fee_bps
    simp only [set_trade_counter_feeBps]
    rw [hbps]
  unfold create_trade is_initialized checked_mul checked_div
  rw [hin, increment_run hc hc1]
  simp [ham, harb, hmul, hfb]

theorem reachable_dS1 : Reachable dS1 := by
  have h01 : initContract dS0 1 2 250 = Except.ok ((), dS1) := rfl
  exact Reachable.init (Reachable.deploy 0) h01

theorem reachable_dS2 : Reachable dS2 := by
  have h12 : create_trade dS1 3 4 10000 none = Except.ok (1, dS2) := rfl
  exact Reachable.create reachable_dS1 h12

/-! ## Claim theorems -/

/-- C2: for every amount and every fee_bps ≤ 10000, the fee computed at
trade creation equals floor(amount * fee_bps / 10000) exactly and
satisfies fee ≤ amount; when the multiplication amount * fee_bps
overflows a 64-bit integer, create_trade returns the Overflow error
rather than wrapping. -/
theorem create_trade_fee_exact (s : EscrowState) (se b am bps c : Nat)
    (hin : s.inited = true) (ham : am ≠ 0) (hc : s.tradeCounter = some c)
    (hc1 : c + 1 ≤ U64_MAX) (hbps : s.feeBps = some bps)
    (hle : bps ≤ 10000) :
    (am * bps ≤ U64_MAX →
      ∃ s' t, create_trade s se b am none = .ok (c + 1, s') ∧
        s'.trades (c + 1) = some t ∧ t.fee = am * bps / 10000 ∧
        t.fee ≤ am ∧ t.amount = am) ∧
    (U64_MAX < am * bps →
      create_trade s se b am none = .error .Overflow) := by
  constructor
  · intro hmul
    have hfee_le : am * bps / 10000 ≤ am := by
      calc am * bps / 10000 ≤ am * 10000 / 10000 :=
            Nat.div_le_div_right (Nat.mul_le_mul_left am hle)
        _ = am := Nat.mul_div_cancel am (by norm_num)
    refine ⟨save_trade (set_trade_counter s (c + 1)) (c + 1)
        { id := c + 1, seller := se, buyer := b, amount := am
          fee := am * bps / 10000, arbitrator := none
          status := .Created },
      { id := c + 1, seller := se, buyer := b, amount := am
        fee := am * bps / 10000, arbitrator := none
        status := .Created },
      create_trade_run s se b am bps c none hin ham (by simp) hc hc1
        hbps hmul, by simp, rfl, hfee_le, rfl⟩
  · intro hmul
    have hnot : ¬ am * bps ≤ U64_MAX := by omega
    have hfb : get_fee_bps (set_trade_counter s (c + 1)) = .ok bps := by
      unfold get_fee_bps
      simp only [set_trade_counter_feeBps]
      rw [hbps]
    unfold create_trade is_initialized checked_mul
    rw [hin, increment_run hc hc1]
    simp [ham, hnot, hfb]

/-- Witness for C2 at the initialized demo state: amount 10000,
fee rate 250 bps, counter 0. -/
theorem create_trade_fee_exact_witness :
    dS1.inited = true ∧ (10000 : Nat) ≠ 0 ∧
    dS1.tradeCounter = some 0 ∧ 0 + 1 ≤ U64_MAX ∧
    dS1.feeBps = some 250 ∧ (250 : Nat) ≤ 10000 ∧
    (∃ s' t, create_trade dS1 3 4 10000 none = .ok (0 + 1, s') ∧
      s'.trades (0 + 1) = some t ∧ t.fee = 10000 * 250 / 10000 ∧
      t.fee ≤ 10000 ∧ t.amount = 10000) := by
  refine ⟨rfl, by decide, rfl, by decide, rfl, by decide, ?_⟩
  exact (create_trade_fee_exact dS1 3 4 10000 250 0 rfl (by decide) rfl
    (by decide) rfl (by decide)).1 (by decide)

/-- C3: trade ids are assigned 1, 2, 3, … in creation order: initialize
starts the counter at 0, each successful create_trade returns id
counter + 1 and advances the counter to it, the returned id was never
previously in use (so ids are never reused, even after cancellation,
since cancelled trades stay stored), and a counter increment past u64
fails with Overflow. -/
theorem trade_ids_sequential :
    (∀ (s : EscrowState) (a u f : Nat) (x : Unit) (s' : EscrowState),
      initContract s a u f = .ok (x, s') → s'.tradeCounter = some 0) ∧
    (∀ (s : EscrowState) (se b am : Nat) (arb : Option Addr)
      (tid : Nat) (s' : EscrowState), Reachable s →
      create_trade s se b am arb = .ok (tid, s') →
      ∃ c, s.tradeCounter = some c ∧ tid = c + 1 ∧
        s'.tradeCounter = some (c + 1) ∧ s.trades tid = none ∧
        s'.trades tid ≠ none) ∧
    (∀ (s : EscrowState) (se b am : Nat), s.inited = true →
      s.tradeCounter = some U64_MAX → am ≠ 0 →
      create_trade s se b am none = .error .Overflow) := by
  refine ⟨?_, ?_, ?_⟩
  · intro s a u f x s' h
    obtain ⟨h1, h2, hs'⟩ := initContract_ok h
    subst hs'
    rfl
  · intro s se b am arb tid s' hr h
    obtain ⟨c, bps, hin, ham, harb, hc, hc1, htid, hbps, hmul, hs'⟩ :=
      create_trade_ok h
    subst htid hs'
    have hInv := reachable_inv hr
    have hfree : s.trades (c + 1) = none := by
      cases hcase : s.trades (c + 1) with
      | none => rfl
      | some u =>
        obtain ⟨_, hle⟩ := hInv.2.2.1 (c + 1) u c hcase hc
        omega
    refine ⟨c, hc, rfl, rfl, hfree, ?_⟩
    simp
  · intro s se b am hin hc ham
    have hinc : increment_trade_counter s = .error .Overflow := by
      unfold increment_trade_counter get_trade_counter checked_add
      rw [hc]
      have hnot : ¬ U64_MAX + 1 ≤ U64_MAX := by omega
      simp [hnot]
    unfold create_trade is_initialized
    rw [hin, hinc]
    simp [ham]

/-- Witness for C3: after initialize the counter is 0, and the first
creation on the demo chain yields id 1 = 0 + 1 with no reuse. -/
theorem trade_ids_sequential_witness :
    dS1.tradeCounter = some 0 ∧
    (∃ c, dS1.tradeCounter = some c ∧ (1 : Nat) = c + 1 ∧
      dS2.tradeCounter = some (c + 1) ∧ dS1.trades 1 = none ∧
      dS2.trades 1 ≠ none) := by
  constructor
  · exact trade_ids_sequential.1 dS0 1 2 250 () dS1 rfl
  · exact trade_ids_sequential.2.1 dS1 3 4 10000 none 1 dS2
      reachable_dS1 rfl

/-- C1 (code bug): funds are NOT released exactly once.  Since neither
`confirm_receipt` nor `resolve_dispute` ever writes an updated status
back to storage, the trade stays `Completed` (resp. `Disputed`) after a
successful settlement, and a repeated call succeeds again: on the demo
settlement chain a second `confirm_receipt(1)` transfers the 9750 payout
a second time and doubles the accrued fee to 500, and on the dispute
chain a second `resolve_dispute(1, ReleaseToBuyer)` does the same. -/
theorem settlement_repeatable :
    callOk (confirm_receipt dS4 1) = true ∧
    dS5.accumulatedFees = some 250 ∧
    dS5.transfers = [(4, 0, 10000), (0, 3, 9750)] ∧
    (dS5.trades 1).map Trade.status = some .Completed ∧
    callOk (confirm_receipt dS5 1) = true ∧
    (commit (confirm_receipt dS5 1) dS5).accumulatedFees = some 500 ∧
    (commit (confirm_receipt dS5 1) dS5).transfers =
      [(4, 0, 10000), (0, 3, 9750), (0, 3, 9750)] ∧
    callOk (resolve_dispute aS4 1 .ReleaseToBuyer) = true ∧
    rS1.accumulatedFees = some 250 ∧
    (rS1.trades 1).map Trade.status = some .Disputed ∧
    callOk (resolve_dispute rS1 1 .ReleaseToBuyer) = true ∧
    (commit (resolve_dispute rS1 1 .ReleaseToBuyer) rS1).accumulatedFees =
      some 500 := by
  exact ⟨rfl, rfl, rfl, rfl, rfl, rfl, rfl, rfl, rfl, rfl, rfl, rfl⟩

/-- C4: update_fee changes only the stored fee rate; every other piece
of contract state — in particular every stored trade with its pinned
`fee` field — is exactly as before, so later settlements use the fee
computed at creation. -/
theorem update_fee_pins_trade_fee (s : EscrowState) (f : Nat)
    (x : Unit) (s' : EscrowState) (h : update_fee s f = .ok (x, s')) :
    s'.feeBps = some f ∧ s'.trades = s.trades ∧
    s'.tradeCounter = s.tradeCounter ∧
    s'.accumulatedFees = s.accumulatedFees ∧ s'.admin = s.admin ∧
    s'.usdcToken = s.usdcToken ∧ s'.arbitrators = s.arbitrators ∧
    s'.transfers = s.transfers ∧
    ∀ id t, s.trades id = some t → s'.trades id = some t := by
  obtain ⟨hin, hf, hs'⟩ := update_fee_ok h
  subst hs'
  exact ⟨rfl, rfl, rfl, rfl, rfl, rfl, rfl, rfl, fun id t ht => ht⟩

/-- Witness for C4: raising the rate to 500 bps on the demo state with
one open trade leaves the stored trade (fee 250) untouched. -/
theorem update_fee_pins_trade_fee_witness :
    (commit (update_fee dS2 500) dS2).feeBps = some 500 ∧
    (commit (update_fee dS2 500) dS2).trades = dS2.trades ∧
    dS2.trades 1 = some { id := 1, seller := 3, buyer := 4
                          amount := 10000, fee := 250, arbitrator := none
                          status := .Created } := by
  have h := update_fee_pins_trade_fee dS2 500 ()
    (commit (update_fee dS2 500) dS2) rfl
  exact ⟨h.1, h.2.1, rfl⟩

/-- C5: raise_dispute distinguishes its two failure modes: on a Funded
or Completed trade with no arbitrator bound it fails with
ArbitratorNotRegistered whoever the caller is (in particular for the
trade's own buyer or seller), and on such a trade with an arbitrator
bound it fails with Unauthorized when the caller is neither the buyer
nor the seller. -/
theorem raise_dispute_error_kinds (s : EscrowState) (id caller : Nat)
    (t : Trade) (hin : s.inited = true) (ht : s.trades id = some t)
    (hst : t.status = .Funded ∨ t.status = .Completed) :
    (t.arbitrator = none →
      raise_dispute s id caller = .error .ArbitratorNotRegistered) ∧
    (t.arbitrator ≠ none → caller ≠ t.buyer → caller ≠ t.seller →
      raise_dispute s id caller = .error .Unauthorized) := by
  have hgt : get_trade s id = .ok t := get_trade_of_some ht
  have hstc : ¬(t.status ≠ TradeStatus.Funded ∧
      t.status ≠ TradeStatus.Completed) := by
    rcases hst with h | h <;> simp [h]
  constructor
  · intro harb
    unfold raise_dispute is_initialized
    rw [hin, hgt]
    simp [hstc, harb]
  · intro harb hb hs2
    unfold raise_dispute is_initialized
    rw [hin, hgt]
    simp [hstc, harb, hb, hs2]

/-- Witness for C5: on the funded no-arbitrator trade even the buyer
(address 4) gets ArbitratorNotRegistered, and on the funded arbitrated
trade a third party (address 8) gets Unauthorized. -/
theorem raise_dispute_error_kinds_witness :
    raise_dispute dS3 1 4 = .error .ArbitratorNotRegistered ∧
    raise_dispute aS3 1 8 = .error .Unauthorized := by
  constructor
  · exact (raise_dispute_error_kinds dS3 1 4
      { id := 1, seller := 3, buyer := 4, amount := 10000, fee := 250
        arbitrator := none, status := .Funded }
      rfl rfl (Or.inl rfl)).1 rfl
  · exact (raise_dispute_error_kinds aS3 1 8
      { id := 1, seller := 3, buyer := 4, amount := 10000, fee := 250
        arbitrator := some 9, status := .Funded }
      rfl rfl (Or.inl rfl)).2 (by decide) (by decide) (by decide)

/-- C6: the InvalidStatus guard violations perform no mutation:
cancel_trade on a non-Created (e.g. Funded) trade and confirm_receipt
on a non-Completed (e.g. Created) trade both fail with InvalidStatus,
and the committed post-state is exactly the pre-state (trade record,
trade counter and accumulated fees included). -/
theorem guard_violation_no_mutation (s : EscrowState) (id : Nat)
    (t : Trade) (hin : s.inited = true) (ht : s.trades id = some t) :
    (t.status ≠ .Created →
      cancel_trade s id = .error .InvalidStatus ∧
      commit (cancel_trade s id) s = s) ∧
    (t.status ≠ .Completed →
      confirm_receipt s id = .error .InvalidStatus ∧
      commit (confirm_receipt s id) s = s) := by
  have hgt : get_trade s id = .ok t := get_trade_of_some ht
  constructor
  · intro hst
    have herr : cancel_trade s id = .error .InvalidStatus := by
      unfold cancel_trade is_initialized
      rw [hin, hgt]
      simp [hst]
    exact ⟨herr, by simp [commit, herr]⟩
  · intro hst
    have herr : confirm_receipt s id = .error .InvalidStatus := by
      unfold confirm_receipt is_initialized
      rw [hin, hgt]
      simp [hst]
    exact ⟨herr, by simp [commit, herr]⟩

/-- Witness for C6: cancelling the funded demo trade and confirming the
freshly created demo trade both fail with InvalidStatus and leave the
state untouched. -/
theorem guard_violation_no_mutation_witness :
    (cancel_trade dS3 1 = .error .InvalidStatus ∧
      commit (cancel_trade dS3 1) dS3 = dS3) ∧
    (confirm_receipt dS2 1 = .error .InvalidStatus ∧
      commit (confirm_receipt dS2 1) dS2 = dS2) := by
  constructor
  · exact (guard_violation_no_mutation dS3 1
      { id := 1, seller := 3, buyer := 4, amount := 10000, fee := 250
        arbitrator := none, status := .Funded }
      rfl rfl).1 (by decide)
  · exact (guard_violation_no_mutation dS2 1
      { id := 1, seller := 3, buyer := 4, amount := 10000, fee := 250
        arbitrator := none, status := .Created }
      rfl rfl).2 (by decide)

/-- C7 counterexample: on the uninitialized engine, `get_trade` reports
TradeNotFound — not NotInitialized — and `is_arbitrator_registered`
returns plain `false` with no error at all, so not every read-only
accessor reports NotInitialized before initialize. -/
theorem pre_init_accessors_counterexample :
    get_trade_fn dS0 1 = .error .TradeNotFound ∧
    get_trade_fn dS0 1 ≠ .error .NotInitialized ∧
    is_arbitrator_registered dS0 5 = false := by
  refine ⟨rfl, ?_, rfl⟩
  intro h
  simp [get_trade_fn, get_trade, dS0, emptyState] at h

/-- C7 amended: before initialize, `get_accumulated_fees` and
`get_platform_fee_bps` fail with NotInitialized, but `get_trade` fails
with TradeNotFound and `is_arbitrator_registered` returns `false`
without an error channel. -/
theorem pre_init_accessor_kinds (ca id a : Nat) :
    get_trade_fn (emptyState ca) id = .error .TradeNotFound ∧
    is_arbitrator_registered (emptyState ca) a = false ∧
    get_accumulated_fees_fn (emptyState ca) = .error .NotInitialized ∧
    get_platform_fee_bps (emptyState ca) = .error .NotInitialized :=
  ⟨rfl, rfl, rfl, rfl⟩

/-- C8 counterexample: `create_trade` called with seller = buyer = 7
succeeds and stores a trade whose two parties are the same address. -/
theorem create_trade_same_party_counterexample :
    create_trade dS1 7 7 10000 none = .ok (1, cS) ∧
    cS.trades 1 = some { id := 1, seller := 7, buyer := 7
                         amount := 10000, fee := 250, arbitrator := none
                         status := .Created } := by
  exact ⟨rfl, rfl⟩

/-- C8 amended: create_trade performs no distinctness check on the
parties: called with seller equal to buyer it succeeds and stores a
trade whose seller and buyer are the same address. -/
theorem create_trade_no_distinctness (s : EscrowState)
    (p am bps c : Nat) (hin : s.inited = true) (ham : am ≠ 0)
    (hc : s.tradeCounter = some c) (hc1 : c + 1 ≤ U64_MAX)
    (hbps : s.feeBps = some bps) (hmul : am * bps ≤ U64_MAX) :
    ∃ s' t, create_trade s p p am none = .ok (c + 1, s') ∧
      s'.trades (c + 1) = some t ∧ t.seller = t.buyer := by
  refine ⟨save_trade (set_trade_counter s (c + 1)) (c + 1)
      { id := c + 1, seller := p, buyer := p, amount := am
        fee := am * bps / 10000, arbitrator := none
        status := .Created },
    { id := c + 1, seller := p, buyer := p, amount := am
      fee := am * bps / 10000, arbitrator := none
      status := .Created },
    create_trade_run s p p am bps c none hin ham (by simp) hc hc1
      hbps hmul, by simp, rfl⟩

/-- Witness for the C8 amended claim at the initialized demo state. -/
theorem create_trade_no_distinctness_witness :
    ∃ s' t, create_trade dS1 7 7 10000 none = .ok (0 + 1, s') ∧
      s'.trades (0 + 1) = some t ∧ t.seller = t.buyer :=
  create_trade_no_distinctness dS1 7 10000 250 0 rfl (by decide) rfl
    (by decide) rfl (by decide)

/-- C9: in every reachable state, every stored trade satisfies
fee ≤ amount (the rate is capped at 10000 bps at initialize/update_fee
and the fee is floor(amount * bps / 10000) at creation), so the checked
subtraction amount - fee computed by confirm_receipt and
resolve_dispute always succeeds and never takes the Overflow branch. -/
theorem payout_subtraction_safe (s : EscrowState) (hr : Reachable s)
    (id : Nat) (t : Trade) (ht : s.trades id = some t) :
    t.fee ≤ t.amount ∧
    checked_sub t.amount t.fee = some (t.amount - t.fee) := by
  have hle := (reachable_inv hr).2.1 id t ht
  refine ⟨hle, ?_⟩
  unfold checked_sub
  rw [if_pos hle]

/-- Witness for C9 on the reachable demo state holding trade 1. -/
theorem payout_subtraction_safe_witness :
    dS2.trades 1 = some { id := 1, seller := 3, buyer := 4
                          amount := 10000, fee := 250, arbitrator := none
                          status := .Created } ∧
    checked_sub 10000 250 = some 9750 := by
  constructor
  · rfl
  · exact (payout_subtraction_safe dS2 reachable_dS2 1
      { id := 1, seller := 3, buyer := 4, amount := 10000, fee := 250
        arbitrator := none, status := .Created } rfl).2

/-- C10: removing an arbitrator from the registry does not revoke their
power over existing trades: resolve_dispute authorizes against the
trade's pinned arbitrator field and never consults registry
membership, so after remove_arbitrator_fn has removed the pinned
arbitrator from the registry, resolve_dispute on the disputed trade
still succeeds, paying out and accruing the fee. -/
theorem pinned_arbitrator_after_removal (s : EscrowState)
    (arb id adm tok cur : Nat) (t : Trade) (res : DisputeResolution)
    (hin : s.inited = true) (hadm : s.admin = some adm)
    (ht : s.trades id = some t) (hst : t.status = .Disputed)
    (harb : t.arbitrator = some arb) (htok : s.usdcToken = some tok)
    (hcur : s.accumulatedFees = some cur) (hfle : t.fee ≤ t.amount)
    (hale : cur + t.fee ≤ U64_MAX) :
    ∃ s1, remove_arbitrator_fn s arb = .ok ((), s1) ∧
      s1.arbitrators arb = false ∧
      resolve_dispute s1 id res =
        .ok ((), set_accumulated_fees
          (transferTok s1 s1.contractAddr (recipientOf t res)
            (t.amount - t.fee)) (cur + t.fee)) := by
  have hrm : remove_arbitrator_fn s arb =
      .ok ((), remove_arbitrator s arb) := by
    unfold remove_arbitrator_fn is_initialized get_admin
    rw [hin, hadm]
    simp
  refine ⟨remove_arbitrator s arb, hrm, by simp, ?_⟩
  have hgt : get_trade (remove_arbitrator s arb) id = .ok t := by
    apply get_trade_of_some
    simp only [remove_arbitrator_trades]
    exact ht
  have htok1 : get_usdc_token (remove_arbitrator s arb) = .ok tok := by
    unfold get_usdc_token
    simp only [remove_arbitrator_usdcToken]
    rw [htok]
  have hsub : checked_sub t.amount t.fee = some (t.amount - t.fee) := by
    unfold checked_sub
    rw [if_pos hfle]
  have hgacc : get_accumulated_fees (transferTok (remove_arbitrator s arb)
      s.contractAddr (recipientOf t res)
      (t.amount - t.fee)) = .ok cur := by
    unfold get_accumulated_fees
    simp only [transferTok_accumulatedFees, remove_arbitrator_accumulatedFees]
    rw [hcur]
  have hadd : checked_add cur t.fee = some (cur + t.fee) := by
    unfold checked_add
    rw [if_pos hale]
  unfold resolve_dispute is_initialized
  simp [hin, hgt, hst, harb, htok1, hsub, hgacc, hadd]

/-- Witness for C10 on the disputed demo chain: after removing
arbitrator 9, resolve_dispute(1, ReleaseToBuyer) still succeeds,
transferring 9750 to the buyer and accruing the 250 fee. -/
theorem pinned_arbitrator_after_removal_witness :
    ∃ s1, remove_arbitrator_fn aS4 9 = .ok ((), s1) ∧
      s1.arbitrators 9 = false ∧
      resolve_dispute s1 1 DisputeResolution.ReleaseToBuyer =
        .ok ((), set_accumulated_fees
          (transferTok s1 s1.contractAddr
            (recipientOf tA DisputeResolution.ReleaseToBuyer)
            (tA.amount - tA.fee)) (0 + tA.fee)) :=
  pinned_arbitrator_after_removal aS4 9 1 1 2 0 tA
    DisputeResolution.ReleaseToBuyer rfl rfl rfl rfl rfl rfl rfl
    (by decide) (by decide)

end StellarEscrow
